import Mathlib

/-
Verification of the graph-construction behavior of
`classification_models_3D/models/inception_v3.py`.

The repository wires externally supplied Keras layer primitives into a fixed
directed acyclic graph.  We embed the construction shallowly: each layer
allocation is a `Node` (its constructor arguments recorded symbolically)
appended to a list, and a tensor handle is the index of its producing node.
The host framework primitives (Conv3D, BatchNormalization, pooling, Dense,
concatenate, Model) are opaque to the repository, so recording their
construction arguments and wiring is a faithful model of everything the
repository decides.
-/

namespace IV3

/-- A per-axis triple (depth, height, width) of natural numbers, used for
convolution / pooling strides and window sizes. -/
abbrev Nat3 := Nat × Nat × Nat

/-- The layer allocations the source performs, with the constructor arguments
the source passes.  `name` fields are `Option String` because Keras accepts
`name=None`. -/
inductive LayerOp where
  | input3d
  | conv3d (filters num_row num_col num_z : Nat) (strides : Nat3)
      (padding : String) (name : Option String)
  | batchNorm (axis : Nat) (name : Option String)
  | activation (kind : String) (name : Option String)
  | maxPool3d (pool : Nat3) (strides : Nat3) (padding : String)
  | avgPool3d (pool : Nat3) (strides : Nat3) (padding : String)
  | concat3d (axis : Nat) (name : Option String)
  | globalAvgPool3d (name : Option String)
  | globalMaxPool3d
  | dense (units : Nat) (activation : String) (name : Option String)
  deriving DecidableEq

/-- A node of the constructed graph: the layer plus the indices of the tensors
it consumes. -/
structure Node where
  op : LayerOp
  inputs : List Nat
  deriving DecidableEq

/-- The graph being built, in allocation order. -/
abbrev Graph := List Node

/-- Allocate a layer applied to the given input tensors.  `n` is the number of
nodes allocated so far (always `g.length`; threading it separately keeps the
index of the new node available without re-measuring the graph).  Returns the
extended graph, the new allocation count, and the index of the new output
tensor. -/
def addNode (g : Graph) (n : Nat) (op : LayerOp) (ins : List Nat) :
    Graph × Nat × Nat :=
  (g ++ [⟨op, ins⟩], n + 1, n)

/-- `channel_axis` / `bn_axis` selection: 1 when
`backend.image_data_format() == 'channels_first'`, else 4 (source lines 60-63
and 170-173). -/
def chAxis (channelsFirst : Bool) : Nat :=
  if channelsFirst then 1 else 4

/-- Embedding of `conv3d_bn` (source lines 28-72): Conv3D (no bias) followed by
BatchNormalization and a relu Activation. -/
def conv3d_bn (channelsFirst : Bool) (g : Graph) (n x : Nat)
    (filters num_row num_col num_z : Nat) (padding : String) (strides : Nat3)
    (name : Option String) : Graph × Nat × Nat :=
  let bn_axis := chAxis channelsFirst
  let (g, n, x) := addNode g n
    (.conv3d filters num_row num_col num_z strides padding
      (name.map (fun s => s ++ "_conv"))) [x]
  let (g, n, x) := addNode g n
    (.batchNorm bn_axis (name.map (fun s => s ++ "_bn"))) [x]
  addNode g n (.activation "relu" name) [x]

/-- The stem of the network (source lines 162-184 with `input_tensor = None`):
the Input declaration, five conv+bn+relu stages (the first strided with
schedule entry 0) and two MaxPooling3D stages consuming schedule entries 1
and 2 with window `stride + 1` per axis and Keras default padding `valid`. -/
def buildStem (cf : Bool) (s0 s1 s2 : Nat3) : Graph × Nat × Nat :=
  let (g, n, x) := addNode [] 0 .input3d []
  let (g, n, x) := conv3d_bn cf g n x 32 3 3 3 "same" s0 none
  let (g, n, x) := conv3d_bn cf g n x 32 3 3 3 "same" (1, 1, 1) none
  let (g, n, x) := conv3d_bn cf g n x 64 3 3 3 "same" (1, 1, 1) none
  let (g, n, x) := addNode g n
    (.maxPool3d (s1.1 + 1, s1.2.1 + 1, s1.2.2 + 1) s1 "valid") [x]
  let (g, n, x) := conv3d_bn cf g n x 80 1 1 1 "same" (1, 1, 1) none
  let (g, n, x) := conv3d_bn cf g n x 192 3 3 3 "same" (1, 1, 1) none
  addNode g n (.maxPool3d (s2.1 + 1, s2.2.1 + 1, s2.2.2 + 1) s2 "valid") [x]

/-- Mixed blocks 0, 1 and 2 (source lines 186-241): identical 4-branch shape;
they differ only in the filter count of the pooling branch 1x1x1 conv
(32, 64, 64) and in the concat name. -/
def mixed012 (cf : Bool) (g : Graph) (n x : Nat) (poolFilters : Nat)
    (nm : String) : Graph × Nat × Nat :=
  let (g, n, branch1x1) := conv3d_bn cf g n x 64 1 1 1 "same" (1, 1, 1) none
  let (g, n, branch5x5) := conv3d_bn cf g n x 48 1 1 1 "same" (1, 1, 1) none
  let (g, n, branch5x5) :=
    conv3d_bn cf g n branch5x5 64 5 5 5 "same" (1, 1, 1) none
  let (g, n, branch3x3dbl) := conv3d_bn cf g n x 64 1 1 1 "same" (1, 1, 1) none
  let (g, n, branch3x3dbl) :=
    conv3d_bn cf g n branch3x3dbl 96 3 3 3 "same" (1, 1, 1) none
  let (g, n, branch3x3dbl) :=
    conv3d_bn cf g n branch3x3dbl 96 3 3 3 "same" (1, 1, 1) none
  let (g, n, branch_pool) :=
    addNode g n (.avgPool3d (3, 3, 3) (1, 1, 1) "same") [x]
  let (g, n, branch_pool) :=
    conv3d_bn cf g n branch_pool poolFilters 1 1 1 "same" (1, 1, 1) none
  addNode g n (.concat3d (chAxis cf) (some nm))
    [branch1x1, branch5x5, branch3x3dbl, branch_pool]

/-- Mixed block 3 (source lines 243-255): downsampling block consuming stride
schedule entry 3 in two convolutions and its MaxPooling3D branch. -/
def mixed3blk (cf : Bool) (g : Graph) (n x : Nat) (s3 : Nat3) :
    Graph × Nat × Nat :=
  let (g, n, branch3x3) := conv3d_bn cf g n x 384 3 3 3 "same" s3 none
  let (g, n, branch3x3dbl) := conv3d_bn cf g n x 64 1 1 1 "same" (1, 1, 1) none
  let (g, n, branch3x3dbl) :=
    conv3d_bn cf g n branch3x3dbl 96 3 3 3 "same" (1, 1, 1) none
  let (g, n, branch3x3dbl) :=
    conv3d_bn cf g n branch3x3dbl 96 3 3 3 "same" s3 none
  let (g, n, branch_pool) :=
    addNode g n (.maxPool3d (s3.1 + 1, s3.2.1 + 1, s3.2.2 + 1) s3 "same") [x]
  addNode g n (.concat3d (chAxis cf) (some "mixed3"))
    [branch3x3, branch3x3dbl, branch_pool]

/-- Mixed blocks 4-7 (source lines 257-321): identical 4-branch 7x7 shape with
filter parameter `f` equal to 128 (mixed4), 160 (mixed5, mixed6 via the
`for i in range(2)` loop) and 192 (mixed7). -/
def mixed7style (cf : Bool) (g : Graph) (n x : Nat) (f : Nat) (nm : String) :
    Graph × Nat × Nat :=
  let (g, n, branch1x1) := conv3d_bn cf g n x 192 1 1 1 "same" (1, 1, 1) none
  let (g, n, branch7x7) := conv3d_bn cf g n x f 1 1 1 "same" (1, 1, 1) none
  let (g, n, branch7x7) :=
    conv3d_bn cf g n branch7x7 f 1 7 1 "same" (1, 1, 1) none
  let (g, n, branch7x7) :=
    conv3d_bn cf g n branch7x7 192 7 1 1 "same" (1, 1, 1) none
  let (g, n, branch7x7dbl) := conv3d_bn cf g n x f 1 1 1 "same" (1, 1, 1) none
  let (g, n, branch7x7dbl) :=
    conv3d_bn cf g n branch7x7dbl f 7 1 1 "same" (1, 1, 1) none
  let (g, n, branch7x7dbl) :=
    conv3d_bn cf g n branch7x7dbl f 1 7 1 "same" (1, 1, 1) none
  let (g, n, branch7x7dbl) :=
    conv3d_bn cf g n branch7x7dbl f 7 1 1 "same" (1, 1, 1) none
  let (g, n, branch7x7dbl) :=
    conv3d_bn cf g n branch7x7dbl 192 1 7 1 "same" (1, 1, 1) none
  let (g, n, branch_pool) :=
    addNode g n (.avgPool3d (3, 3, 3) (1, 1, 1) "same") [x]
  let (g, n, branch_pool) :=
    conv3d_bn cf g n branch_pool 192 1 1 1 "same" (1, 1, 1) none
  addNode g n (.concat3d (chAxis cf) (some nm))
    [branch1x1, branch7x7, branch7x7dbl, branch_pool]

/-- Mixed block 8 (source lines 323-339): downsampling block consuming stride
schedule entry 4 in two convolutions and its MaxPooling3D branch. -/
def mixed8blk (cf : Bool) (g : Graph) (n x : Nat) (s4 : Nat3) :
    Graph × Nat × Nat :=
  let (g, n, branch3x3) := conv3d_bn cf g n x 192 1 1 1 "same" (1, 1, 1) none
  let (g, n, branch3x3) :=
    conv3d_bn cf g n branch3x3 320 3 3 3 "same" s4 none
  let (g, n, branch7x7x3) := conv3d_bn cf g n x 192 1 1 1 "same" (1, 1, 1) none
  let (g, n, branch7x7x3) :=
    conv3d_bn cf g n branch7x7x3 192 1 7 1 "same" (1, 1, 1) none
  let (g, n, branch7x7x3) :=
    conv3d_bn cf g n branch7x7x3 192 7 1 1 "same" (1, 1, 1) none
  let (g, n, branch7x7x3) :=
    conv3d_bn cf g n branch7x7x3 192 3 3 3 "same" s4 none
  let (g, n, branch_pool) :=
    addNode g n (.maxPool3d (s4.1 + 1, s4.2.1 + 1, s4.2.2 + 1) s4 "same") [x]
  addNode g n (.concat3d (chAxis cf) (some "mixed8"))
    [branch3x3, branch7x7x3, branch_pool]

/-- Mixed blocks 9 and 10 (source lines 341-366, the `for i in range(2)` loop
body): `innerNm` is `'mixed9_' + str(i)` and `nm` is `'mixed' + str(9 + i)`;
the branch3x3dbl inner concatenation carries no name. -/
def mixed910 (cf : Bool) (g : Graph) (n x : Nat) (innerNm nm : String) :
    Graph × Nat × Nat :=
  let (g, n, branch1x1) := conv3d_bn cf g n x 320 1 1 1 "same" (1, 1, 1) none
  let (g, n, branch3x3) := conv3d_bn cf g n x 384 1 1 1 "same" (1, 1, 1) none
  let (g, n, branch3x3a) :=
    conv3d_bn cf g n branch3x3 384 1 3 1 "same" (1, 1, 1) none
  let (g, n, branch3x3b) :=
    conv3d_bn cf g n branch3x3 384 3 1 1 "same" (1, 1, 1) none
  let (g, n, branch3x3c) :=
    addNode g n (.concat3d (chAxis cf) (some innerNm)) [branch3x3a, branch3x3b]
  let (g, n, branch3x3dbl) := conv3d_bn cf g n x 448 1 1 1 "same" (1, 1, 1) none
  let (g, n, branch3x3dbl) :=
    conv3d_bn cf g n branch3x3dbl 384 3 3 3 "same" (1, 1, 1) none
  let (g, n, branch3x3dbla) :=
    conv3d_bn cf g n branch3x3dbl 384 1 3 1 "same" (1, 1, 1) none
  let (g, n, branch3x3dblb) :=
    conv3d_bn cf g n branch3x3dbl 384 3 1 1 "same" (1, 1, 1) none
  let (g, n, branch3x3dblc) :=
    addNode g n (.concat3d (chAxis cf) none) [branch3x3dbla, branch3x3dblb]
  let (g, n, branch_pool) :=
    addNode g n (.avgPool3d (3, 3, 3) (1, 1, 1) "same") [x]
  let (g, n, branch_pool) :=
    conv3d_bn cf g n branch_pool 192 1 1 1 "same" (1, 1, 1) none
  addNode g n (.concat3d (chAxis cf) (some nm))
    [branch1x1, branch3x3c, branch3x3dblc, branch_pool]

/-- The full fixed topology through mixed block 10 (source lines 162-366). -/
def buildCore (cf : Bool) (s0 s1 s2 s3 s4 : Nat3) : Graph × Nat × Nat :=
  let (g, n, x) := buildStem cf s0 s1 s2
  let (g, n, x) := mixed012 cf g n x 32 "mixed0"
  let (g, n, x) := mixed012 cf g n x 64 "mixed1"
  let (g, n, x) := mixed012 cf g n x 64 "mixed2"
  let (g, n, x) := mixed3blk cf g n x s3
  let (g, n, x) := mixed7style cf g n x 128 "mixed4"
  let (g, n, x) := mixed7style cf g n x 160 "mixed5"
  let (g, n, x) := mixed7style cf g n x 160 "mixed6"
  let (g, n, x) := mixed7style cf g n x 192 "mixed7"
  let (g, n, x) := mixed8blk cf g n x s4
  let (g, n, x) := mixed910 cf g n x "mixed9_0" "mixed9"
  mixed910 cf g n x "mixed9_1" "mixed10"

/-- The complete constructed graph (source lines 162-375): the core followed by
the terminal stage selected by `include_top` and `pooling`.  Returns the
graph, the allocation count, and the output tensor index. -/
def buildGraph (cf : Bool) (s0 s1 s2 s3 s4 : Nat3) (include_top : Bool)
    (pooling : Option String) (classes : Nat) : Graph × Nat × Nat :=
  let core := buildCore cf s0 s1 s2 s3 s4
  if include_top = true then
    let gap := addNode core.1 core.2.1 (.globalAvgPool3d (some "avg_pool"))
      [core.2.2]
    addNode gap.1 gap.2.1 (.dense classes "softmax" (some "predictions"))
      [gap.2.2]
  else if pooling = some "avg" then
    addNode core.1 core.2.1 (.globalAvgPool3d none) [core.2.2]
  else if pooling = some "max" then
    addNode core.1 core.2.1 .globalMaxPool3d [core.2.2]
  else
    core

/-! ## The `stride_size` argument and its normalization (source lines 141-160) -/

/-- An element of a `stride_size` sequence as the source accepts it: either a
scalar or an explicit 3-axis tuple. -/
inductive StrideElem where
  | scalar (s : Nat)
  | triple (t : Nat3)
  deriving DecidableEq

/-- The `stride_size` argument as the source accepts it: a scalar (anything
whose `type` is not `tuple` or `list`) or a sequence. -/
inductive StrideArg where
  | scalar (s : Nat)
  | seq (l : List StrideElem)
  deriving DecidableEq

/-- Per-element broadcast (source lines 158-160): a scalar element becomes the
same stride on all three axes. -/
def broadcastElem : StrideElem → Nat3
  | .scalar s => (s, s, s)
  | .triple t => t

/-- Normalization of `stride_size` (source lines 141-160): a scalar is
broadcast into a 5-element schedule of identical per-axis triples; a sequence
is length-checked (`none` models the `print` + `return None` path at lines
154-156) and then each element is broadcast. -/
def normalizeStrideSize : StrideArg → Option (List Nat3)
  | .scalar s =>
      some [(s, s, s), (s, s, s), (s, s, s), (s, s, s), (s, s, s)]
  | .seq l => if l.length = 5 then some (l.map broadcastElem) else none

/-! ## The call surface of `InceptionV3` (source lines 75-392) -/

/-- The four module handles `get_submodules_from_kwargs(kwargs)` extracts from
the keyword arguments.  Their identity is opaque to this file, so each is an
abstract tag. -/
structure Submodules where
  backendM : Nat
  layersM : Nat
  modelsM : Nat
  kerasUtilsM : Nat
  deriving DecidableEq

/-- The process-wide module references declared at source lines 22-25; each is
`None` until first assigned. -/
structure Globals where
  backendG : Option Nat
  layersG : Option Nat
  modelsG : Option Nat
  kerasUtilsG : Option Nat
  deriving DecidableEq

/-- The model object `models.Model(inputs, x, name='inception_v3')` wraps: the
constructed graph, its output tensor index, the model name, and which
filesystem path (if any) `model.load_weights` was called with (source lines
383-390). -/
structure Model where
  graph : Graph
  output : Nat
  name : String
  loadedWeightsFrom : Option String
  deriving DecidableEq

/-- How a Python call ends: raising an exception or returning a value.  The
returned value is `Option Model` because the malformed-stride path returns
`None` (source line 156). -/
inductive PyOutcome where
  | raised (msg : String)
  | returned (m : Option Model)
  deriving DecidableEq

/-- Everything observable about one `InceptionV3` call: the module-level
globals after the call, what was printed, and the outcome. -/
structure CallResult where
  globals : Globals
  printed : List String
  outcome : PyOutcome
  deriving DecidableEq

/-- The ValueError message for a bad `weights` argument (source lines 132-135,
condensed). -/
def weightsErrorMsg : String :=
  "The weights argument should be either None (random initialization), imagenet (pre-training on ImageNet), or the path to the weights file to be loaded."

/-- The ValueError message for the imagenet / include_top / classes mismatch
(source lines 138-139, condensed). -/
def classesErrorMsg : String :=
  "If using weights as imagenet with include_top as true, classes should be 1000"

/-- The diagnostic printed for a malformed stride schedule (source line 155). -/
def strideErrorMsg : String :=
  "Error: stride_size length must be exactly 5"

/-- The warning printed instead of downloading imagenet weights (source
line 388). -/
def imagenetWarnMsg : String :=
  "Warning: no imagenet weights available!!!"

/-- The `weights` validity test at source line 131:
`weights in {'imagenet', None} or os.path.exists(weights)`, with the
filesystem modelled by the predicate `fsExists`. -/
def weightsValid (fsExists : String → Bool) (weights : Option String) : Bool :=
  match weights with
  | none => true
  | some w => w == "imagenet" || fsExists w

set_option linter.unusedVariables false in
/-- Embedding of `InceptionV3` (source lines 75-392), for the
`input_tensor = None` case (the `input_tensor` branch only forwards opaque
framework calls).  `fsExists` models `os.path.exists`, `channelsFirst` models
`backend.image_data_format() == 'channels_first'`, `subs` models the result of
`get_submodules_from_kwargs(kwargs)`, and `g0` is the state of the module
globals before the call (overwritten, never read).  The source's
`if not (...): raise` at line 131 is rendered as the equivalent
valid-then-continue-else-raise conditional. -/
def InceptionV3 (fsExists : String → Bool) (channelsFirst : Bool)
    (subs : Submodules) (g0 : Globals) (include_top : Bool)
    (weights : Option String) (pooling : Option String) (classes : Nat)
    (stride_size : StrideArg) : CallResult :=
  -- source lines 128-129: the globals are overwritten before any validation
  let globals1 : Globals :=
    ⟨some subs.backendM, some subs.layersM, some subs.modelsM,
     some subs.kerasUtilsM⟩
  if weightsValid fsExists weights = true then
    if weights = some "imagenet" ∧ include_top = true ∧ classes ≠ 1000 then
      ⟨globals1, [], .raised classesErrorMsg⟩
    else
      match normalizeStrideSize stride_size with
      | none => ⟨globals1, [strideErrorMsg], .returned none⟩
      | some ss =>
        let s0 := ss.getD 0 (0, 0, 0)
        let s1 := ss.getD 1 (0, 0, 0)
        let s2 := ss.getD 2 (0, 0, 0)
        let s3 := ss.getD 3 (0, 0, 0)
        let s4 := ss.getD 4 (0, 0, 0)
        let gr := buildGraph channelsFirst s0 s1 s2 s3 s4 include_top pooling
          classes
        let printed :=
          if weights = some "imagenet" then [imagenetWarnMsg] else []
        let loaded : Option String :=
          if weights = some "imagenet" then none else weights
        ⟨globals1, printed,
         .returned (some ⟨gr.1, gr.2.2, "inception_v3", loaded⟩)⟩
  else
    ⟨globals1, [], .raised weightsErrorMsg⟩

/-! ## Input normalization (source lines 395-404) -/

/-- Modelled from the spec: `preprocess_input` delegates to the external
`keras_applications.imagenet_utils.preprocess_input(x, mode='tf')`, whose body
is not part of this repository; the spec describes it as the fixed linear
transform taking channel values in `[0, 255]` to (roughly) `[-1, 1]`, i.e.
division by 127.5 followed by subtracting 1, applied elementwise.  Exact
rational arithmetic stands in for floating point. -/
def preprocess_input (v : ℚ) : ℚ :=
  v / (255 / 2) - 1

/-- The inverse affine transform of `preprocess_input`. -/
def preprocessInverse (w : ℚ) : ℚ :=
  (w + 1) * (255 / 2)

/-- Elementwise application of `preprocess_input` to a batch, modelled as a
list of channel values. -/
def preprocessBatch (l : List ℚ) : List ℚ :=
  l.map preprocess_input

/-! ## Graph observation functions used by the theorem statements -/

/-- The operation of the last allocated node of a graph. -/
def finalOp (g : Graph) : Option LayerOp :=
  g.getLast?.map (fun nd => nd.op)

/-- The operation of the next-to-last allocated node of a graph. -/
def penultimateOp (g : Graph) : Option LayerOp :=
  g.dropLast.getLast?.map (fun nd => nd.op)

/-- All MaxPooling3D allocations of a graph, in order: window, strides,
padding. -/
def maxPools (g : Graph) : List (Nat3 × Nat3 × String) :=
  g.filterMap (fun nd =>
    match nd.op with
    | .maxPool3d pool strides padding => some (pool, strides, padding)
    | _ => none)

/-- The strides of every stride-bearing layer (Conv3D, MaxPooling3D,
AveragePooling3D) of a graph, in allocation order. -/
def convPoolStrides (g : Graph) : List Nat3 :=
  g.filterMap (fun nd =>
    match nd.op with
    | .conv3d _ _ _ _ strides _ _ => some strides
    | .maxPool3d _ strides _ => some strides
    | .avgPool3d _ strides _ => some strides
    | _ => none)

/-- The (optional) names of the concatenation layers of a graph, in
allocation order. -/
def concatNames (g : Graph) : List (Option String) :=
  g.filterMap (fun nd =>
    match nd.op with
    | .concat3d _ nm => some nm
    | _ => none)

/-- Whether a node is a Conv3D allocation. -/
def isConvNode (nd : Node) : Bool :=
  match nd.op with
  | .conv3d _ _ _ _ _ _ _ => true
  | _ => false

/-- The unit stride `(1, 1, 1)`, the Keras default for the unstrided layers. -/
def unitStride : Nat3 := (1, 1, 1)

/-- The stride layout of the fixed topology: where each schedule entry is
consumed among the stride-bearing layers, in allocation order.  Segments:
stem (7), mixed0-2 (24), mixed3 (5), mixed4-7 (44), mixed8 (7),
mixed9-10 (20). -/
def expectedStrides (s0 s1 s2 s3 s4 : Nat3) : List Nat3 :=
  [s0, unitStride, unitStride, s1, unitStride, unitStride, s2]
    ++ List.replicate 24 unitStride
    ++ [s3, unitStride, unitStride, s3, s3]
    ++ List.replicate 44 unitStride
    ++ [unitStride, s4, unitStride, unitStride, unitStride, s4, s4]
    ++ List.replicate 20 unitStride

/-! ## Concrete sample values used by the witness theorems -/

/-- A sample model: the graph built with the all-2 stride schedule and the
classification head, as returned for `weights = None`. -/
def modelTopSample : Model :=
  ⟨(buildGraph false (2, 2, 2) (2, 2, 2) (2, 2, 2) (2, 2, 2) (2, 2, 2) true
      none 1000).1,
   (buildGraph false (2, 2, 2) (2, 2, 2) (2, 2, 2) (2, 2, 2) (2, 2, 2) true
      none 1000).2.2,
   "inception_v3", none⟩

/-- A sample model: the headless all-2-stride graph as returned when a weight
file path is supplied. -/
def modelPathSample : Model :=
  ⟨(buildGraph false (2, 2, 2) (2, 2, 2) (2, 2, 2) (2, 2, 2) (2, 2, 2) false
      none 1000).1,
   (buildGraph false (2, 2, 2) (2, 2, 2) (2, 2, 2) (2, 2, 2) (2, 2, 2) false
      none 1000).2.2,
   "inception_v3", some "weights.h5"⟩

section EquationLemmas

theorem conv3d_bn_eq (cf : Bool) (g : Graph) (n x : Nat)
    (f r c z : Nat) (p : String) (st : Nat3) (nm : Option String) :
    conv3d_bn cf g n x f r c z p st nm =
      (g ++
        [⟨.conv3d f r c z st p (nm.map (fun s => s ++ "_conv")), [x]⟩,
         ⟨.batchNorm (chAxis cf) (nm.map (fun s => s ++ "_bn")), [n]⟩,
         ⟨.activation "relu" nm, [n + 1]⟩],
       n + 3, n + 2) := by
  simp [conv3d_bn, addNode]

theorem buildStem_eq (cf : Bool) (s0 s1 s2 : Nat3) :
    buildStem cf s0 s1 s2 =
    (      [
       ⟨.input3d, []⟩,
       ⟨.conv3d 32 3 3 3 s0 "same" none, [0]⟩,
       ⟨.batchNorm (chAxis cf) none, [1]⟩,
       ⟨.activation "relu" none, [2]⟩,
       ⟨.conv3d 32 3 3 3 (1, 1, 1) "same" none, [3]⟩,
       ⟨.batchNorm (chAxis cf) none, [4]⟩,
       ⟨.activation "relu" none, [5]⟩,
       ⟨.conv3d 64 3 3 3 (1, 1, 1) "same" none, [6]⟩,
       ⟨.batchNorm (chAxis cf) none, [7]⟩,
       ⟨.activation "relu" none, [8]⟩,
       ⟨.maxPool3d (s1.1 + 1, s1.2.1 + 1, s1.2.2 + 1) s1 "valid", [9]⟩,
       ⟨.conv3d 80 1 1 1 (1, 1, 1) "same" none, [10]⟩,
       ⟨.batchNorm (chAxis cf) none, [11]⟩,
       ⟨.activation "relu" none, [12]⟩,
       ⟨.conv3d 192 3 3 3 (1, 1, 1) "same" none, [13]⟩,
       ⟨.batchNorm (chAxis cf) none, [14]⟩,
       ⟨.activation "relu" none, [15]⟩,
       ⟨.maxPool3d (s2.1 + 1, s2.2.1 + 1, s2.2.2 + 1) s2 "valid", [16]⟩
      ],
     18, 17) := by
  simp [buildStem, conv3d_bn_eq, addNode]

theorem mixed012_eq (cf : Bool) (g : Graph) (n x : Nat) (pf : Nat) (nm : String) :
    mixed012 cf g n x pf nm =
    (g ++
      [
       ⟨.conv3d 64 1 1 1 (1, 1, 1) "same" none, [x]⟩,
       ⟨.batchNorm (chAxis cf) none, [n]⟩,
       ⟨.activation "relu" none, [n + 1]⟩,
       ⟨.conv3d 48 1 1 1 (1, 1, 1) "same" none, [x]⟩,
       ⟨.batchNorm (chAxis cf) none, [n + 3]⟩,
       ⟨.activation "relu" none, [n + 4]⟩,
       ⟨.conv3d 64 5 5 5 (1, 1, 1) "same" none, [n + 5]⟩,
       ⟨.batchNorm (chAxis cf) none, [n + 6]⟩,
       ⟨.activation "relu" none, [n + 7]⟩,
       ⟨.conv3d 64 1 1 1 (1, 1, 1) "same" none, [x]⟩,
       ⟨.batchNorm (chAxis cf) none, [n + 9]⟩,
       ⟨.activation "relu" none, [n + 10]⟩,
       ⟨.conv3d 96 3 3 3 (1, 1, 1) "same" none, [n + 11]⟩,
       ⟨.batchNorm (chAxis cf) none, [n + 12]⟩,
       ⟨.activation "relu" none, [n + 13]⟩,
       ⟨.conv3d 96 3 3 3 (1, 1, 1) "same" none, [n + 14]⟩,
       ⟨.batchNorm (chAxis cf) none, [n + 15]⟩,
       ⟨.activation "relu" none, [n + 16]⟩,
       ⟨.avgPool3d (3, 3, 3) (1, 1, 1) "same", [x]⟩,
       ⟨.conv3d pf 1 1 1 (1, 1, 1) "same" none, [n + 18]⟩,
       ⟨.batchNorm (chAxis cf) none, [n + 19]⟩,
       ⟨.activation "relu" none, [n + 20]⟩,
       ⟨.concat3d (chAxis cf) (some nm), [n + 2, n + 8, n + 17, n + 21]⟩
      ],
     n + 23, n + 22) := by
  simp [mixed012, conv3d_bn_eq, addNode]

theorem mixed3blk_eq (cf : Bool) (g : Graph) (n x : Nat) (s3 : Nat3) :
    mixed3blk cf g n x s3 =
    (g ++
      [
       ⟨.conv3d 384 3 3 3 s3 "same" none, [x]⟩,
       ⟨.batchNorm (chAxis cf) none, [n]⟩,
       ⟨.activation "relu" none, [n + 1]⟩,
       ⟨.conv3d 64 1 1 1 (1, 1, 1) "same" none, [x]⟩,
       ⟨.batchNorm (chAxis cf) none, [n + 3]⟩,
       ⟨.activation "relu" none, [n + 4]⟩,
       ⟨.conv3d 96 3 3 3 (1, 1, 1) "same" none, [n + 5]⟩,
       ⟨.batchNorm (chAxis cf) none, [n + 6]⟩,
       ⟨.activation "relu" none, [n + 7]⟩,
       ⟨.conv3d 96 3 3 3 s3 "same" none, [n + 8]⟩,
       ⟨.batchNorm (chAxis cf) none, [n + 9]⟩,
       ⟨.activation "relu" none, [n + 10]⟩,
       ⟨.maxPool3d (s3.1 + 1, s3.2.1 + 1, s3.2.2 + 1) s3 "same", [x]⟩,
       ⟨.concat3d (chAxis cf) (some "mixed3"), [n + 2, n + 11, n + 12]⟩
      ],
     n + 14, n + 13) := by
  simp [mixed3blk, conv3d_bn_eq, addNode]

theorem mixed7style_eq (cf : Bool) (g : Graph) (n x : Nat) (f : Nat) (nm : String) :
    mixed7style cf g n x f nm =
    (g ++
      [
       ⟨.conv3d 192 1 1 1 (1, 1, 1) "same" none, [x]⟩,
       ⟨.batchNorm (chAxis cf) none, [n]⟩,
       ⟨.activation "relu" none, [n + 1]⟩,
       ⟨.conv3d f 1 1 1 (1, 1, 1) "same" none, [x]⟩,
       ⟨.batchNorm (chAxis cf) none, [n + 3]⟩,
       ⟨.activation "relu" none, [n + 4]⟩,
       ⟨.conv3d f 1 7 1 (1, 1, 1) "same" none, [n + 5]⟩,
       ⟨.batchNorm (chAxis cf) none, [n + 6]⟩,
       ⟨.activation "relu" none, [n + 7]⟩,
       ⟨.conv3d 192 7 1 1 (1, 1, 1) "same" none, [n + 8]⟩,
       ⟨.batchNorm (chAxis cf) none, [n + 9]⟩,
       ⟨.activation "relu" none, [n + 10]⟩,
       ⟨.conv3d f 1 1 1 (1, 1, 1) "same" none, [x]⟩,
       ⟨.batchNorm (chAxis cf) none, [n + 12]⟩,
       ⟨.activation "relu" none, [n + 13]⟩,
       ⟨.conv3d f 7 1 1 (1, 1, 1) "same" none, [n + 14]⟩,
       ⟨.batchNorm (chAxis cf) none, [n + 15]⟩,
       ⟨.activation "relu" none, [n + 16]⟩,
       ⟨.conv3d f 1 7 1 (1, 1, 1) "same" none, [n + 17]⟩,
       ⟨.batchNorm (chAxis cf) none, [n + 18]⟩,
       ⟨.activation "relu" none, [n + 19]⟩,
       ⟨.conv3d f 7 1 1 (1, 1, 1) "same" none, [n + 20]⟩,
       ⟨.batchNorm (chAxis cf) none, [n + 21]⟩,
       ⟨.activation "relu" none, [n + 22]⟩,
       ⟨.conv3d 192 1 7 1 (1, 1, 1) "same" none, [n + 23]⟩,
       ⟨.batchNorm (chAxis cf) none, [n + 24]⟩,
       ⟨.activation "relu" none, [n + 25]⟩,
       ⟨.avgPool3d (3, 3, 3) (1, 1, 1) "same", [x]⟩,
       ⟨.conv3d 192 1 1 1 (1, 1, 1) "same" none, [n + 27]⟩,
       ⟨.batchNorm (chAxis cf) none, [n + 28]⟩,
       ⟨.activation "relu" none, [n + 29]⟩,
       ⟨.concat3d (chAxis cf) (some nm), [n + 2, n + 11, n + 26, n + 30]⟩
      ],
     n + 32, n + 31) := by
  simp [mixed7style, conv3d_bn_eq, addNode]

theorem mixed8blk_eq (cf : Bool) (g : Graph) (n x : Nat) (s4 : Nat3) :
    mixed8blk cf g n x s4 =
    (g ++
      [
       ⟨.conv3d 192 1 1 1 (1, 1, 1) "same" none, [x]⟩,
       ⟨.batchNorm (chAxis cf) none, [n]⟩,
       ⟨.activation "relu" none, [n + 1]⟩,
       ⟨.conv3d 320 3 3 3 s4 "same" none, [n + 2]⟩,
       ⟨.batchNorm (chAxis cf) none, [n + 3]⟩,
       ⟨.activation "relu" none, [n + 4]⟩,
       ⟨.conv3d 192 1 1 1 (1, 1, 1) "same" none, [x]⟩,
       ⟨.batchNorm (chAxis cf) none, [n + 6]⟩,
       ⟨.activation "relu" none, [n + 7]⟩,
       ⟨.conv3d 192 1 7 1 (1, 1, 1) "same" none, [n + 8]⟩,
       ⟨.batchNorm (chAxis cf) none, [n + 9]⟩,
       ⟨.activation "relu" none, [n + 10]⟩,
       ⟨.conv3d 192 7 1 1 (1, 1, 1) "same" none, [n + 11]⟩,
       ⟨.batchNorm (chAxis cf) none, [n + 12]⟩,
       ⟨.activation "relu" none, [n + 13]⟩,
       ⟨.conv3d 192 3 3 3 s4 "same" none, [n + 14]⟩,
       ⟨.batchNorm (chAxis cf) none, [n + 15]⟩,
       ⟨.activation "relu" none, [n + 16]⟩,
       ⟨.maxPool3d (s4.1 + 1, s4.2.1 + 1, s4.2.2 + 1) s4 "same", [x]⟩,
       ⟨.concat3d (chAxis cf) (some "mixed8"), [n + 5, n + 17, n + 18]⟩
      ],
     n + 20, n + 19) := by
  simp [mixed8blk, conv3d_bn_eq, addNode]

theorem mixed910_eq (cf : Bool) (g : Graph) (n x : Nat) (innerNm nm : String) :
    mixed910 cf g n x innerNm nm =
    (g ++
      [
       ⟨.conv3d 320 1 1 1 (1, 1, 1) "same" none, [x]⟩,
       ⟨.batchNorm (chAxis cf) none, [n]⟩,
       ⟨.activation "relu" none, [n + 1]⟩,
       ⟨.conv3d 384 1 1 1 (1, 1, 1) "same" none, [x]⟩,
       ⟨.batchNorm (chAxis cf) none, [n + 3]⟩,
       ⟨.activation "relu" none, [n + 4]⟩,
       ⟨.conv3d 384 1 3 1 (1, 1, 1) "same" none, [n + 5]⟩,
       ⟨.batchNorm (chAxis cf) none, [n + 6]⟩,
       ⟨.activation "relu" none, [n + 7]⟩,
       ⟨.conv3d 384 3 1 1 (1, 1, 1) "same" none, [n + 5]⟩,
       ⟨.batchNorm (chAxis cf) none, [n + 9]⟩,
       ⟨.activation "relu" none, [n + 10]⟩,
       ⟨.concat3d (chAxis cf) (some innerNm), [n + 8, n + 11]⟩,
       ⟨.conv3d 448 1 1 1 (1, 1, 1) "same" none, [x]⟩,
       ⟨.batchNorm (chAxis cf) none, [n + 13]⟩,
       ⟨.activation "relu" none, [n + 14]⟩,
       ⟨.conv3d 384 3 3 3 (1, 1, 1) "same" none, [n + 15]⟩,
       ⟨.batchNorm (chAxis cf) none, [n + 16]⟩,
       ⟨.activation "relu" none, [n + 17]⟩,
       ⟨.conv3d 384 1 3 1 (1, 1, 1) "same" none, [n + 18]⟩,
       ⟨.batchNorm (chAxis cf) none, [n + 19]⟩,
       ⟨.activation "relu" none, [n + 20]⟩,
       ⟨.conv3d 384 3 1 1 (1, 1, 1) "same" none, [n + 18]⟩,
       ⟨.batchNorm (chAxis cf) none, [n + 22]⟩,
       ⟨.activation "relu" none, [n + 23]⟩,
       ⟨.concat3d (chAxis cf) none, [n + 21, n + 24]⟩,
       ⟨.avgPool3d (3, 3, 3) (1, 1, 1) "same", [x]⟩,
       ⟨.conv3d 192 1 1 1 (1, 1, 1) "same" none, [n + 26]⟩,
       ⟨.batchNorm (chAxis cf) none, [n + 27]⟩,
       ⟨.activation "relu" none, [n + 28]⟩,
       ⟨.concat3d (chAxis cf) (some nm), [n + 2, n + 12, n + 25, n + 29]⟩
      ],
     n + 31, n + 30) := by
  simp [mixed910, conv3d_bn_eq, addNode]

end EquationLemmas



section CoreObservations

theorem convPoolStrides_append (a b : Graph) :
    convPoolStrides (a ++ b) = convPoolStrides a ++ convPoolStrides b := by
  simp [convPoolStrides]

theorem concatNames_append (a b : Graph) :
    concatNames (a ++ b) = concatNames a ++ concatNames b := by
  simp [concatNames]

theorem maxPools_append (a b : Graph) :
    maxPools (a ++ b) = maxPools a ++ maxPools b := by
  simp [maxPools]

set_option maxRecDepth 40000 in
theorem cps_core (cf : Bool) (s0 s1 s2 s3 s4 : Nat3) :
    convPoolStrides (buildCore cf s0 s1 s2 s3 s4).1 =
      expectedStrides s0 s1 s2 s3 s4 := by
  simp [buildCore, buildStem_eq, mixed012_eq, mixed3blk_eq, mixed7style_eq,
        mixed8blk_eq, mixed910_eq, convPoolStrides, expectedStrides,
        unitStride]

end CoreObservations


set_option maxRecDepth 40000 in
theorem concatNames_core (cf : Bool) (s0 s1 s2 s3 s4 : Nat3) :
    concatNames (buildCore cf s0 s1 s2 s3 s4).1 =
      [some "mixed0", some "mixed1", some "mixed2", some "mixed3",
       some "mixed4", some "mixed5", some "mixed6", some "mixed7",
       some "mixed8", some "mixed9_0", none, some "mixed9",
       some "mixed9_1", none, some "mixed10"] := by
  simp [buildCore, buildStem_eq, mixed012_eq, mixed3blk_eq, mixed7style_eq,
        mixed8blk_eq, mixed910_eq, concatNames]

set_option maxRecDepth 40000 in
theorem maxPools_core (cf : Bool) (s0 s1 s2 s3 s4 : Nat3) :
    maxPools (buildCore cf s0 s1 s2 s3 s4).1 =
      [((s1.1 + 1, s1.2.1 + 1, s1.2.2 + 1), s1, "valid"),
       ((s2.1 + 1, s2.2.1 + 1, s2.2.2 + 1), s2, "valid"),
       ((s3.1 + 1, s3.2.1 + 1, s3.2.2 + 1), s3, "same"),
       ((s4.1 + 1, s4.2.1 + 1, s4.2.2 + 1), s4, "same")] := by
  simp [buildCore, buildStem_eq, mixed012_eq, mixed3blk_eq, mixed7style_eq,
        mixed8blk_eq, mixed910_eq, maxPools]

set_option maxRecDepth 40000 in
theorem length_core (cf : Bool) (s0 s1 s2 s3 s4 : Nat3) :
    (buildCore cf s0 s1 s2 s3 s4).1.length = 311 := by
  simp [buildCore, buildStem_eq, mixed012_eq, mixed3blk_eq, mixed7style_eq,
        mixed8blk_eq, mixed910_eq]

set_option maxRecDepth 40000 in
theorem next_core (cf : Bool) (s0 s1 s2 s3 s4 : Nat3) :
    (buildCore cf s0 s1 s2 s3 s4).2.1 = 311 := by
  simp [buildCore, buildStem_eq, mixed012_eq, mixed3blk_eq, mixed7style_eq,
        mixed8blk_eq, mixed910_eq]

set_option maxRecDepth 40000 in
theorem out_core (cf : Bool) (s0 s1 s2 s3 s4 : Nat3) :
    (buildCore cf s0 s1 s2 s3 s4).2.2 = 310 := by
  simp [buildCore, buildStem_eq, mixed012_eq, mixed3blk_eq, mixed7style_eq,
        mixed8blk_eq, mixed910_eq]

set_option maxRecDepth 40000 in
theorem finalOp_core (cf : Bool) (s0 s1 s2 s3 s4 : Nat3) :
    finalOp (buildCore cf s0 s1 s2 s3 s4).1 =
      some (.concat3d (chAxis cf) (some "mixed10")) := by
  simp [buildCore, buildStem_eq, mixed012_eq, mixed3blk_eq, mixed7style_eq,
        mixed8blk_eq, mixed910_eq, finalOp]

theorem stemConvCount (cf : Bool) (s0 s1 s2 : Nat3) :
    ((buildStem cf s0 s1 s2).1.filter isConvNode).length = 5 := by
  rw [buildStem_eq]
  rfl


section BuildGraphLemmas

theorem finalOp_concat (a : Graph) (y : Node) :
    finalOp (a ++ [y]) = some y.op := by
  simp [finalOp]

theorem finalOp_concat_two (a : Graph) (y z : Node) :
    finalOp (a ++ [y, z]) = some z.op := by
  rw [show a ++ [y, z] = (a ++ [y]) ++ [z] by simp]
  exact finalOp_concat _ _

theorem penultimateOp_concat_two (a : Graph) (y z : Node) :
    penultimateOp (a ++ [y, z]) = some y.op := by
  rw [penultimateOp, show a ++ [y, z] = (a ++ [y]) ++ [z] by simp,
    List.dropLast_concat]
  simp

theorem buildGraph_top_eq (cf : Bool) (s0 s1 s2 s3 s4 : Nat3)
    (p : Option String) (cl : Nat) :
    buildGraph cf s0 s1 s2 s3 s4 true p cl =
      ((buildCore cf s0 s1 s2 s3 s4).1 ++
        [⟨.globalAvgPool3d (some "avg_pool"),
          [(buildCore cf s0 s1 s2 s3 s4).2.2]⟩,
         ⟨.dense cl "softmax" (some "predictions"),
          [(buildCore cf s0 s1 s2 s3 s4).2.1]⟩],
       (buildCore cf s0 s1 s2 s3 s4).2.1 + 2,
       (buildCore cf s0 s1 s2 s3 s4).2.1 + 1) := by
  simp [buildGraph, addNode]

theorem buildGraph_avg_eq (cf : Bool) (s0 s1 s2 s3 s4 : Nat3) (cl : Nat) :
    buildGraph cf s0 s1 s2 s3 s4 false (some "avg") cl =
      ((buildCore cf s0 s1 s2 s3 s4).1 ++
        [⟨.globalAvgPool3d none, [(buildCore cf s0 s1 s2 s3 s4).2.2]⟩],
       (buildCore cf s0 s1 s2 s3 s4).2.1 + 1,
       (buildCore cf s0 s1 s2 s3 s4).2.1) := by
  simp [buildGraph, addNode]

theorem buildGraph_max_eq (cf : Bool) (s0 s1 s2 s3 s4 : Nat3) (cl : Nat) :
    buildGraph cf s0 s1 s2 s3 s4 false (some "max") cl =
      ((buildCore cf s0 s1 s2 s3 s4).1 ++
        [⟨.globalMaxPool3d, [(buildCore cf s0 s1 s2 s3 s4).2.2]⟩],
       (buildCore cf s0 s1 s2 s3 s4).2.1 + 1,
       (buildCore cf s0 s1 s2 s3 s4).2.1) := by
  simp [buildGraph, addNode]

theorem buildGraph_none_eq (cf : Bool) (s0 s1 s2 s3 s4 : Nat3) (cl : Nat) :
    buildGraph cf s0 s1 s2 s3 s4 false none cl =
      buildCore cf s0 s1 s2 s3 s4 := by
  simp [buildGraph]

theorem buildGraph_other_eq (cf : Bool) (s0 s1 s2 s3 s4 : Nat3) (cl : Nat)
    (p : Option String) (h1 : p ≠ some "avg") (h2 : p ≠ some "max") :
    buildGraph cf s0 s1 s2 s3 s4 false p cl = buildCore cf s0 s1 s2 s3 s4 := by
  simp [buildGraph, h1, h2]

end BuildGraphLemmas


/-! ## Claims -/

/-- C1 counterexample: the claim quantifies over every sequence-valued stride
argument of length different from 5, but the weights validation at source
line 131 runs first, so a call that also carries an invalid weights argument
raises a ValueError instead of printing the diagnostic and returning None.
Here a length-4 schedule together with a non-existing weights path raises. -/
theorem C1_counterexample :
    ([StrideElem.scalar 2, .scalar 2, .scalar 2, .scalar 2].length ≠ 5) ∧
    (InceptionV3 (fun _ => false) false ⟨0, 1, 2, 3⟩ ⟨none, none, none, none⟩
        false (some "bogus") none 1000
        (.seq [.scalar 2, .scalar 2, .scalar 2, .scalar 2])).outcome =
      .raised weightsErrorMsg := by
  constructor
  · decide
  · rfl

/-- C1 (amended): provided the weights argument passes the validity check and
the imagenet/include_top/classes check does not fire, every sequence-valued
stride argument whose length is not 5 makes `InceptionV3` print the
diagnostic and return None without raising, and no graph is built: the whole
call result is the no-model sentinel record. -/
theorem C1_badStrideLen_returns_none (fsExists : String → Bool) (cf : Bool)
    (subs : Submodules) (g0 : Globals) (it : Bool) (w : Option String)
    (p : Option String) (cl : Nat) (l : List StrideElem)
    (hw : weightsValid fsExists w = true)
    (hc : ¬(w = some "imagenet" ∧ it = true ∧ cl ≠ 1000))
    (hl : l.length ≠ 5) :
    InceptionV3 fsExists cf subs g0 it w p cl (.seq l) =
      ⟨⟨some subs.backendM, some subs.layersM, some subs.modelsM,
        some subs.kerasUtilsM⟩,
       [strideErrorMsg], .returned none⟩ := by
  have hn : normalizeStrideSize (.seq l) = none := by
    simp [normalizeStrideSize, hl]
  simp [InceptionV3, hw, hc, hn]

/-- C1 witness: a length-1 schedule with valid (unset) weights prints the
diagnostic and returns None. -/
theorem C1_witness :
    InceptionV3 (fun _ => false) false ⟨0, 1, 2, 3⟩ ⟨none, none, none, none⟩
        false none none 1000 (.seq [.scalar 2]) =
      ⟨⟨some 0, some 1, some 2, some 3⟩, [strideErrorMsg], .returned none⟩ :=
  C1_badStrideLen_returns_none _ _ _ _ _ _ _ _ _ rfl (by decide) (by decide)

/-- C2: a weights argument that is a string other than the identifier
imagenet and is not an existing filesystem path makes `InceptionV3` raise the
invalid-weights ValueError, so no model is returned. -/
theorem C2_invalid_weights_raise (fsExists : String → Bool) (cf : Bool)
    (subs : Submodules) (g0 : Globals) (it : Bool) (p : Option String)
    (cl : Nat) (sa : StrideArg) (w : String)
    (hw : w ≠ "imagenet") (hfs : fsExists w = false) :
    (InceptionV3 fsExists cf subs g0 it (some w) p cl sa).outcome =
      .raised weightsErrorMsg := by
  have hv : weightsValid fsExists (some w) = false := by
    simp [weightsValid, hfs, hw]
  simp [InceptionV3, hv]

/-- C2 witness at a concrete invalid weights string. -/
theorem C2_witness :
    (InceptionV3 (fun _ => false) false ⟨0, 1, 2, 3⟩ ⟨none, none, none, none⟩
        true (some "bogus_weights.h5") none 1000 (.scalar 2)).outcome =
      .raised weightsErrorMsg :=
  C2_invalid_weights_raise _ _ _ _ _ _ _ _ _ (by decide) rfl

/-- C3: with weights = imagenet and the classification head enabled, a class
count other than 1000 raises the class-count ValueError, and a class count of
1000 never raises. -/
theorem C3_imagenet_classes_check (fsExists : String → Bool) (cf : Bool)
    (subs : Submodules) (g0 : Globals) (p : Option String) (sa : StrideArg)
    (cl : Nat) :
    (cl ≠ 1000 →
      (InceptionV3 fsExists cf subs g0 true (some "imagenet") p cl
          sa).outcome = .raised classesErrorMsg) ∧
    (cl = 1000 → ∀ msg,
      (InceptionV3 fsExists cf subs g0 true (some "imagenet") p cl
          sa).outcome ≠ .raised msg) := by
  constructor
  · intro h
    simp [InceptionV3, weightsValid, h]
  · intro h msg hcontra
    subst h
    rcases hn : normalizeStrideSize sa with _ | ss <;>
      simp [InceptionV3, weightsValid, hn] at hcontra

/-- C3 witness: class count 999 raises; class count 1000 does not raise. -/
theorem C3_witness :
    ((InceptionV3 (fun _ => false) false ⟨0, 1, 2, 3⟩ ⟨none, none, none, none⟩
        true (some "imagenet") none 999 (.scalar 2)).outcome =
      .raised classesErrorMsg) ∧
    (∀ msg, (InceptionV3 (fun _ => false) false ⟨0, 1, 2, 3⟩
        ⟨none, none, none, none⟩ true (some "imagenet") none 1000
        (.scalar 2)).outcome ≠ .raised msg) :=
  ⟨(C3_imagenet_classes_check (fun _ => false) false ⟨0, 1, 2, 3⟩
      ⟨none, none, none, none⟩ none (.scalar 2) 999).1 (by decide),
   fun msg => (C3_imagenet_classes_check (fun _ => false) false ⟨0, 1, 2, 3⟩
      ⟨none, none, none, none⟩ none (.scalar 2) 1000).2 rfl msg⟩

/-- C4: a scalar stride argument yields exactly the same call result as the
5-element schedule whose entries are the scalar broadcast to all three axes,
and inside any sequence argument each scalar element may equivalently be
replaced by its 3-axis broadcast. -/
theorem C4_scalar_broadcast (fsExists : String → Bool) (cf : Bool)
    (subs : Submodules) (g0 : Globals) (it : Bool) (w : Option String)
    (p : Option String) (cl : Nat) (s : Nat) (l : List StrideElem) :
    (InceptionV3 fsExists cf subs g0 it w p cl (.scalar s) =
      InceptionV3 fsExists cf subs g0 it w p cl
        (.seq [.triple (s, s, s), .triple (s, s, s), .triple (s, s, s),
               .triple (s, s, s), .triple (s, s, s)])) ∧
    (InceptionV3 fsExists cf subs g0 it w p cl (.seq l) =
      InceptionV3 fsExists cf subs g0 it w p cl
        (.seq (l.map (fun e => StrideElem.triple (broadcastElem e))))) := by
  constructor
  · have hn : normalizeStrideSize (.scalar s) =
        normalizeStrideSize (.seq [.triple (s, s, s), .triple (s, s, s),
          .triple (s, s, s), .triple (s, s, s), .triple (s, s, s)]) := rfl
    unfold InceptionV3
    rw [hn]
  · have hb : ∀ e, broadcastElem (StrideElem.triple (broadcastElem e)) =
        broadcastElem e := fun e => by cases e <;> rfl
    have hn : normalizeStrideSize
          (.seq (l.map (fun e => StrideElem.triple (broadcastElem e)))) =
        normalizeStrideSize (.seq l) := by
      simp [normalizeStrideSize, List.map_map, Function.comp_def, hb]
    unfold InceptionV3
    rw [hn]

/-- C9: every call, including those that fail validation, first overwrites the
four module-level globals with the submodules taken from the keyword
arguments; the pre-call global state survives only if it already equals the
overwritten state. -/
theorem C9_globals_overwritten (fsExists : String → Bool) (cf : Bool)
    (subs : Submodules) (g0 : Globals) (it : Bool) (w : Option String)
    (p : Option String) (cl : Nat) (sa : StrideArg) :
    (InceptionV3 fsExists cf subs g0 it w p cl sa).globals =
      ⟨some subs.backendM, some subs.layersM, some subs.modelsM,
       some subs.kerasUtilsM⟩ ∧
    ((InceptionV3 fsExists cf subs g0 it w p cl sa).globals = g0 ↔
      g0 = ⟨some subs.backendM, some subs.layersM, some subs.modelsM,
            some subs.kerasUtilsM⟩) := by
  have hg : (InceptionV3 fsExists cf subs g0 it w p cl sa).globals =
      ⟨some subs.backendM, some subs.layersM, some subs.modelsM,
       some subs.kerasUtilsM⟩ := by
    unfold InceptionV3
    split
    · split
      · rfl
      · split <;> rfl
    · rfl
  exact ⟨hg, by rw [hg]; exact eq_comm⟩


/-- C5: the terminal stage of a returned model is decided by include_top and
pooling: classification head (global average pool then dense softmax of width
equal to the class count) when include_top holds; a global average pool for
pooling avg; a global max pool for pooling max; and no reduction (the mixed10
concatenation stays last) when pooling is unset.  In every case the model
output is the last allocated node. -/
theorem C5_terminal_stage (fsExists : String → Bool) (cf : Bool)
    (subs : Submodules) (g0 : Globals) (it : Bool) (w : Option String)
    (p : Option String) (cl : Nat) (sa : StrideArg) (m : Model)
    (h : (InceptionV3 fsExists cf subs g0 it w p cl sa).outcome =
      .returned (some m)) :
    (it = true →
      finalOp m.graph = some (.dense cl "softmax" (some "predictions")) ∧
      penultimateOp m.graph = some (.globalAvgPool3d (some "avg_pool")) ∧
      m.output + 1 = m.graph.length) ∧
    (it = false → p = some "avg" →
      finalOp m.graph = some (.globalAvgPool3d none) ∧
      m.output + 1 = m.graph.length) ∧
    (it = false → p = some "max" →
      finalOp m.graph = some .globalMaxPool3d ∧
      m.output + 1 = m.graph.length) ∧
    (it = false → p = none →
      finalOp m.graph = some (.concat3d (chAxis cf) (some "mixed10")) ∧
      m.output + 1 = m.graph.length) := by
  by_cases hv : weightsValid fsExists w = true
  · by_cases hc : w = some "imagenet" ∧ it = true ∧ cl ≠ 1000
    · simp [InceptionV3, hv, hc] at h
      split at h <;> simp at h
    · rcases hn : normalizeStrideSize sa with _ | ss
      · simp [InceptionV3, hv, hc, hn] at h
      · simp only [InceptionV3, hv, hc, hn, if_true, if_false] at h
        simp only [PyOutcome.returned.injEq, Option.some.injEq] at h
        subst h
        refine ⟨?_, ?_, ?_, ?_⟩
        · rintro rfl
          refine ⟨?_, ?_, ?_⟩ <;>
            simp [buildGraph_top_eq, finalOp_concat_two,
              penultimateOp_concat_two, next_core, length_core]
        · rintro rfl rfl
          refine ⟨?_, ?_⟩ <;>
            simp [buildGraph_avg_eq, finalOp_concat, next_core, length_core]
        · rintro rfl rfl
          refine ⟨?_, ?_⟩ <;>
            simp [buildGraph_max_eq, finalOp_concat, next_core, length_core]
        · rintro rfl rfl
          refine ⟨?_, ?_⟩ <;>
            simp [buildGraph_none_eq, finalOp_core, out_core, next_core,
              length_core]
  · simp [InceptionV3, hv] at h

/-- C5 witness at a returned classification-head model. -/
theorem C5_witness :
    finalOp modelTopSample.graph =
      some (.dense 1000 "softmax" (some "predictions")) ∧
    penultimateOp modelTopSample.graph =
      some (.globalAvgPool3d (some "avg_pool")) ∧
    modelTopSample.output + 1 = modelTopSample.graph.length :=
  (C5_terminal_stage (fun _ => false) false ⟨0, 1, 2, 3⟩
    ⟨none, none, none, none⟩ true none none 1000 (.scalar 2)
    modelTopSample rfl).1 rfl

/-- C6 counterexample: at a concrete configuration the stem contains five
convolution+normalization+activation stages (conv 32, conv 32, conv 64,
conv 80, conv 192), not three as the claim states. -/
theorem C6_counterexample :
    ((buildStem false (2, 2, 2) (2, 2, 2) (2, 2, 2)).1.filter
        isConvNode).length = 5 ∧
    ¬((buildStem false (2, 2, 2) (2, 2, 2) (2, 2, 2)).1.filter
        isConvNode).length = 3 := by
  constructor
  · exact stemConvCount false (2, 2, 2) (2, 2, 2) (2, 2, 2)
  · rw [stemConvCount false (2, 2, 2) (2, 2, 2) (2, 2, 2)]
    decide

/-- C6 (amended): the stride-bearing layers of the built graph consume the
schedule exactly as `expectedStrides` lays out: the stem consumes entry 0 (in
the first of its five conv stages) and entries 1 and 2 (in its two max-pools),
the downsampling mixed blocks at positions 3 and 8 of the eleven mixed blocks
consume entries 3 and 4 (twice in convolutions and once in their max-pool
branch), and every other stride-bearing layer uses the unit stride; the
concatenation names list the eleven mixed blocks in order (with the two inner
concatenations of each of mixed9 and mixed10); and the stem has five (not
three) conv+bn+activation stages. -/
theorem C6_schedule_consumption (cf : Bool) (s0 s1 s2 s3 s4 : Nat3)
    (it : Bool) (p : Option String) (cl : Nat) :
    convPoolStrides (buildGraph cf s0 s1 s2 s3 s4 it p cl).1 =
      expectedStrides s0 s1 s2 s3 s4 ∧
    concatNames (buildGraph cf s0 s1 s2 s3 s4 it p cl).1 =
      [some "mixed0", some "mixed1", some "mixed2", some "mixed3",
       some "mixed4", some "mixed5", some "mixed6", some "mixed7",
       some "mixed8", some "mixed9_0", none, some "mixed9",
       some "mixed9_1", none, some "mixed10"] ∧
    ((buildStem cf s0 s1 s2).1.filter isConvNode).length = 5 := by
  refine ⟨?_, ?_, stemConvCount cf s0 s1 s2⟩
  · cases it
    · by_cases hp : p = some "avg"
      · subst hp
        simp only [buildGraph_avg_eq, convPoolStrides_append, cps_core]
        simp [convPoolStrides]
      · by_cases hp2 : p = some "max"
        · subst hp2
          simp only [buildGraph_max_eq, convPoolStrides_append, cps_core]
          simp [convPoolStrides]
        · rw [buildGraph_other_eq cf s0 s1 s2 s3 s4 cl p hp hp2]
          exact cps_core cf s0 s1 s2 s3 s4
    · simp only [buildGraph_top_eq, convPoolStrides_append, cps_core]
      simp [convPoolStrides]
  · cases it
    · by_cases hp : p = some "avg"
      · subst hp
        simp only [buildGraph_avg_eq, concatNames_append, concatNames_core]
        simp [concatNames]
      · by_cases hp2 : p = some "max"
        · subst hp2
          simp only [buildGraph_max_eq, concatNames_append, concatNames_core]
          simp [concatNames]
        · rw [buildGraph_other_eq cf s0 s1 s2 s3 s4 cl p hp hp2]
          exact concatNames_core cf s0 s1 s2 s3 s4
    · simp only [buildGraph_top_eq, concatNames_append, concatNames_core]
      simp [concatNames]

/-- C7: a call with weights = imagenet that passes all validation returns the
constructed model, loads no weight values into it, and prints the no-weights
warning; and whenever a returned model has had weights loaded, the weights
argument was an existing filesystem path different from the imagenet
identifier. -/
theorem C7_imagenet_stub (fsExists : String → Bool) (cf : Bool)
    (subs : Submodules) (g0 : Globals) (it : Bool) (p : Option String)
    (cl : Nat) (sa : StrideArg) :
    ((it = true → cl = 1000) → ∀ ss, normalizeStrideSize sa = some ss →
      ∃ m, (InceptionV3 fsExists cf subs g0 it (some "imagenet") p cl
              sa).outcome = .returned (some m) ∧
           m.loadedWeightsFrom = none ∧
           (InceptionV3 fsExists cf subs g0 it (some "imagenet") p cl
              sa).printed = [imagenetWarnMsg]) ∧
    (∀ w m, (InceptionV3 fsExists cf subs g0 it w p cl sa).outcome =
        .returned (some m) →
      m.loadedWeightsFrom ≠ none →
      ∃ pth, w = some pth ∧ m.loadedWeightsFrom = some pth ∧
        pth ≠ "imagenet" ∧ fsExists pth = true) := by
  constructor
  · intro hcl ss hn
    have hc2 : ¬(it = true ∧ cl ≠ 1000) := by
      rintro ⟨hit, hne⟩
      exact hne (hcl hit)
    refine ⟨⟨(buildGraph cf (ss.getD 0 (0, 0, 0)) (ss.getD 1 (0, 0, 0))
        (ss.getD 2 (0, 0, 0)) (ss.getD 3 (0, 0, 0)) (ss.getD 4 (0, 0, 0))
        it p cl).1,
      (buildGraph cf (ss.getD 0 (0, 0, 0)) (ss.getD 1 (0, 0, 0))
        (ss.getD 2 (0, 0, 0)) (ss.getD 3 (0, 0, 0)) (ss.getD 4 (0, 0, 0))
        it p cl).2.2, "inception_v3", none⟩, ?_, rfl, ?_⟩
    · simp [InceptionV3, weightsValid, hc2, hn]
    · simp [InceptionV3, weightsValid, hc2, hn]
  · intro w m h hld
    by_cases hv : weightsValid fsExists w = true
    · by_cases hc : w = some "imagenet" ∧ it = true ∧ cl ≠ 1000
      · simp [InceptionV3, hv, hc] at h
        split at h <;> simp at h
      · rcases hn : normalizeStrideSize sa with _ | ss
        · simp [InceptionV3, hv, hc, hn] at h
        · simp only [InceptionV3, hv, hc, hn, if_true, if_false] at h
          simp only [PyOutcome.returned.injEq, Option.some.injEq] at h
          subst h
          by_cases him : w = some "imagenet"
          · simp [him] at hld
          · rcases hw : w with _ | pth
            · subst hw
              simp at hld
            · subst hw
              refine ⟨pth, rfl, ?_, ?_, ?_⟩
              · simp [him]
              · intro hpe
                exact him (by rw [hpe])
              · have hne : pth ≠ "imagenet" := fun hpe => him (by rw [hpe])
                simp [weightsValid, hne] at hv
                exact hv
    · simp [InceptionV3, hv] at h

/-- C7 witness: concrete imagenet call and a concrete weight-path model. -/
theorem C7_witness :
    (∃ m, (InceptionV3 (fun _ => true) false ⟨0, 1, 2, 3⟩
        ⟨none, none, none, none⟩ false (some "imagenet") none 1000
        (.scalar 2)).outcome = .returned (some m) ∧
      m.loadedWeightsFrom = none ∧
      (InceptionV3 (fun _ => true) false ⟨0, 1, 2, 3⟩ ⟨none, none, none, none⟩
        false (some "imagenet") none 1000 (.scalar 2)).printed =
        [imagenetWarnMsg]) ∧
    (∃ pth, (some "weights.h5" : Option String) = some pth ∧
      modelPathSample.loadedWeightsFrom = some pth ∧ pth ≠ "imagenet" ∧
      (fun _ => true) pth = true) :=
  ⟨(C7_imagenet_stub (fun _ => true) false ⟨0, 1, 2, 3⟩
      ⟨none, none, none, none⟩ false none 1000 (.scalar 2)).1
      (fun hit => by cases hit) _ rfl,
   (C7_imagenet_stub (fun _ => true) false ⟨0, 1, 2, 3⟩
      ⟨none, none, none, none⟩ false none 1000 (.scalar 2)).2
      (some "weights.h5") modelPathSample rfl (by simp [modelPathSample])⟩

/-- C8: over exact rationals, the preprocessing transform is the fixed affine
map v / 127.5 - 1; it takes every batch with values in [0, 255] into
[-1, 1] elementwise, and composing with the inverted affine map restores the
original batch exactly. -/
theorem C8_preprocess (l : List ℚ) (h : ∀ v ∈ l, 0 ≤ v ∧ v ≤ 255) :
    (∀ w ∈ preprocessBatch l, -1 ≤ w ∧ w ≤ 1) ∧
    (preprocessBatch l).map preprocessInverse = l ∧
    (∀ v : ℚ, preprocess_input v = (2 / 255) * v - 1) := by
  refine ⟨?_, ?_, ?_⟩
  · intro w hw
    rcases List.mem_map.1 hw with ⟨v, hv, rfl⟩
    obtain ⟨h0, h255⟩ := h v hv
    unfold preprocess_input
    constructor
    · have : (0 : ℚ) ≤ v / (255 / 2) := by positivity
      linarith
    · have : v / (255 / 2) ≤ 2 := by
        rw [div_le_iff₀ (by norm_num : (0 : ℚ) < 255 / 2)]
        linarith
      linarith
  · have hinv : ∀ v : ℚ, preprocessInverse (preprocess_input v) = v := by
      intro v
      unfold preprocess_input preprocessInverse
      field_simp
    simp [preprocessBatch, List.map_map, Function.comp_def, hinv]
  · intro v
    unfold preprocess_input
    field_simp
    ring

/-- C8 witness on the batch [0, 51, 255]. -/
theorem C8_witness :
    (∀ w ∈ preprocessBatch [(0 : ℚ), 51, 255], -1 ≤ w ∧ w ≤ 1) ∧
    (preprocessBatch [(0 : ℚ), 51, 255]).map preprocessInverse =
      [(0 : ℚ), 51, 255] ∧
    (∀ v : ℚ, preprocess_input v = (2 / 255) * v - 1) :=
  C8_preprocess [0, 51, 255] (by decide)

/-- C10: the built graph allocates exactly four MaxPooling3D layers — the two
stem pools (padding valid) on schedule entries 1 and 2 and the mixed3 / mixed8
branch pools (padding same) on entries 3 and 4 — and each pooling window is
the per-axis stride plus one. -/
theorem C10_pool_windows (cf : Bool) (s0 s1 s2 s3 s4 : Nat3) (it : Bool)
    (p : Option String) (cl : Nat) :
    maxPools (buildGraph cf s0 s1 s2 s3 s4 it p cl).1 =
      [((s1.1 + 1, s1.2.1 + 1, s1.2.2 + 1), s1, "valid"),
       ((s2.1 + 1, s2.2.1 + 1, s2.2.2 + 1), s2, "valid"),
       ((s3.1 + 1, s3.2.1 + 1, s3.2.2 + 1), s3, "same"),
       ((s4.1 + 1, s4.2.1 + 1, s4.2.2 + 1), s4, "same")] ∧
    (∀ pw st pad,
      (pw, st, pad) ∈ maxPools (buildGraph cf s0 s1 s2 s3 s4 it p cl).1 →
      pw = (st.1 + 1, st.2.1 + 1, st.2.2 + 1)) := by
  have hmp : maxPools (buildGraph cf s0 s1 s2 s3 s4 it p cl).1 =
      [((s1.1 + 1, s1.2.1 + 1, s1.2.2 + 1), s1, "valid"),
       ((s2.1 + 1, s2.2.1 + 1, s2.2.2 + 1), s2, "valid"),
       ((s3.1 + 1, s3.2.1 + 1, s3.2.2 + 1), s3, "same"),
       ((s4.1 + 1, s4.2.1 + 1, s4.2.2 + 1), s4, "same")] := by
    cases it
    · by_cases hp : p = some "avg"
      · subst hp
        simp only [buildGraph_avg_eq, maxPools_append, maxPools_core]
        simp [maxPools]
      · by_cases hp2 : p = some "max"
        · subst hp2
          simp only [buildGraph_max_eq, maxPools_append, maxPools_core]
          simp [maxPools]
        · rw [buildGraph_other_eq cf s0 s1 s2 s3 s4 cl p hp hp2]
          exact maxPools_core cf s0 s1 s2 s3 s4
    · simp only [buildGraph_top_eq, maxPools_append, maxPools_core]
      simp [maxPools]
  refine ⟨hmp, ?_⟩
  intro pw st pad hmem
  rw [hmp] at hmem
  simp only [List.mem_cons, List.not_mem_nil, or_false, Prod.mk.injEq] at hmem
  rcases hmem with ⟨rfl, rfl, -⟩ | ⟨rfl, rfl, -⟩ | ⟨rfl, rfl, -⟩ |
    ⟨rfl, rfl, -⟩ <;> rfl

end IV3
